import Mathlib

/-
Verification of the charity-coders-api REST backend (organizations,
projects, volunteers) against its specification.

The embedding models each route file's handlers as pure functions on an
explicit store state.  A request carries an optional authenticated caller
identity (`none` means passport rejected or no token was supplied).  The
document store of one resource collection is a list of documents plus a
counter used to mint fresh identifiers at creation.  JSON request bodies
are association lists of string fields.

The helpers `handle404`, `requireOwnership` and `handle` live in
`lib/custom_errors.js` / `lib/error_handler.js`, which are not part of the
provided sources; they are modelled from the specification (sections 4.1,
4.2 and 4.4) and marked as such in their doc comments.
-/

namespace CharityCoders

/-- A JSON object body: an association list of field name / string value. -/
abbrev Payload := List (String × String)

/-- First value bound to key `k`, as in JavaScript property access. -/
def lookupKey (p : Payload) (k : String) : Option String :=
  (p.find? (fun kv => kv.1 = k)).map (fun kv => kv.2)

/-- One stored document: identifier, `owner` reference, domain fields. -/
structure Resource where
  rid : String
  owner : String
  fields : Payload
deriving DecidableEq

/-- One Mongo collection: the stored documents plus a counter minting
fresh identifiers for `create`. -/
structure Store where
  docs : List Resource
  nextId : Nat
deriving DecidableEq

/-- `Model.findById(id)`: the first stored document with that id, if any. -/
def findById (s : Store) (id : String) : Option Resource :=
  s.docs.find? (fun d => d.rid = id)

/-- Failure conditions raised during request processing (section 7). -/
inductive Err where
  | notFound
  | forbidden
  | validation
  | cast
  | unclassified
deriving DecidableEq

/-- Externally visible outcome of a route, one per HTTP response shape. -/
inductive Outcome where
  | okList (docs : List Resource)
  | okDoc (doc : Resource)
  | created (doc : Resource)
  | noContent
  | notFound
  | forbidden
  | authError
  | validationError
  | badRequest
  | serverError
deriving DecidableEq

/-- HTTP status of each outcome (section 4.4 table; passport failures and
ownership mismatches both surface as 401). -/
def status : Outcome → Nat
  | .okList _ => 200
  | .okDoc _ => 200
  | .created _ => 201
  | .noContent => 204
  | .notFound => 404
  | .forbidden => 401
  | .authError => 401
  | .validationError => 422
  | .badRequest => 400
  | .serverError => 500

/-- Modelled from the spec: `lib/error_handler.js` is not under the
provided sources.  Section 4.4: a single function maps any failure raised
during request processing to the externally visible outcome
(NotFound to 404, Forbidden to 401, ValidationError to 422, CastError to
400, anything else to 500). -/
def handle : Err → Outcome
  | .notFound => .notFound
  | .forbidden => .forbidden
  | .validation => .validationError
  | .cast => .badRequest
  | .unclassified => .serverError

/-- Modelled from the spec: `lib/custom_errors.js` is not under the
provided sources.  Section 4.1 `handle404`: a lookup result that is absent
fails with the NotFound condition, a present document passes through. -/
def handle404 (r : Option Resource) : Except Err Resource :=
  match r with
  | some doc => .ok doc
  | none => .error .notFound

/-- Modelled from the spec: `lib/custom_errors.js` is not under the
provided sources.  Section 4.2 `requireOwnership`: succeed silently if
`resource.owner == caller.id`, otherwise fail with the Forbidden
condition. -/
def requireOwnership (callerId : String) (r : Resource) : Except Err Unit :=
  if r.owner = callerId then .ok () else .error .forbidden

/-- JavaScript `delete body.owner` (PATCH handlers, first statement). -/
def dropOwnerKey (p : Payload) : Payload :=
  p.filter (fun kv => kv.1 != "owner")

/-- The PATCH handlers' loop deleting every key whose value is `''`. -/
def sanitizeEmpty (p : Payload) : Payload :=
  p.filter (fun kv => kv.2 != "")

/-- The full update-payload sanitization of the PATCH handlers: drop the
`owner` key, then drop every empty-string-valued key. -/
def sanitize (p : Payload) : Payload :=
  sanitizeEmpty (dropOwnerKey p)

/-- JavaScript property assignment `obj[k] = v`: overwrite the first
binding of `k` in place, or append it. -/
def setField : Payload → String → String → Payload
  | [], k, v => [(k, v)]
  | kv :: rest, k, v =>
      if kv.1 = k then (k, v) :: rest else kv :: setField rest k v

/-- Apply a patch object to a field list, key by key. -/
def mergeFields (base patch : Payload) : Payload :=
  patch.foldl (fun acc kv => setField acc kv.1 kv.2) base

/-- Mongoose `document.update(patch)`: schema paths present in the patch
are set (strict mode drops keys outside the schema); the `owner` path is
a schema path in every model, so a patch carrying it would set it. -/
def applyUpdate (schemaKeys : List String) (r : Resource) (patch : Payload) :
    Resource :=
  { r with
    owner := (lookupKey patch "owner").getD r.owner,
    fields :=
      mergeFields r.fields
        (patch.filter (fun kv => schemaKeys.contains kv.1 && kv.1 != "owner")) }

/-- Mongoose required-field validation at `create`: every required path
must be present with a non-empty value. -/
def validate (required : List String) (p : Payload) : Bool :=
  required.all (fun k =>
    match lookupKey p k with
    | some v => v != ""
    | none => false)

/-- `Model.create(body)`: validate, then store a new document under a
fresh identifier, keeping only schema fields (strict mode). -/
def createDoc (schemaKeys required : List String) (p : Payload) (s : Store) :
    Except Err (Resource × Store) :=
  if validate required p then
    Except.ok
      (⟨toString s.nextId, (lookupKey p "owner").getD "",
          p.filter (fun kv => schemaKeys.contains kv.1 && kv.1 != "owner")⟩,
        ⟨s.docs ++
            [⟨toString s.nextId, (lookupKey p "owner").getD "",
              p.filter
                (fun kv => schemaKeys.contains kv.1 && kv.1 != "owner")⟩],
          s.nextId + 1⟩)
  else Except.error .validation

/-- SHOW handler shape shared by `GET /organizations/:id` and
`GET /volunteers/:id`: token required, `findById`, `handle404`, 200 with
the document; any failure goes to `handle`. -/
def showRoute (caller : Option String) (s : Store) (id : String) :
    Outcome × Store :=
  match caller with
  | none => (.authError, s)
  | some _ =>
    match handle404 (findById s id) with
    | .ok doc => (.okDoc doc, s)
    | .error e => (handle e, s)

/-- Promise chain of the PATCH handlers after authentication: drop the
client `owner` key, `findById`, `handle404`, `requireOwnership`, drop
empty-string keys, `document.update`. -/
def updateCore (schemaKeys : List String) (uid : String) (s : Store)
    (id : String) (payload : Payload) : Except Err Store :=
  let body := dropOwnerKey payload
  match handle404 (findById s id) with
  | .error e => .error e
  | .ok doc =>
    match requireOwnership uid doc with
    | .error e => .error e
    | .ok _ =>
      let doc2 := applyUpdate schemaKeys doc (sanitizeEmpty body)
      Except.ok
        { s with
          docs := s.docs.map (fun d => if d.rid = id then doc2 else d) }

/-- UPDATE handler shape shared by all three PATCH routes: token
required, then `updateCore`; success sends 204, failures go to
`handle`. -/
def updateRoute (schemaKeys : List String) (caller : Option String)
    (s : Store) (id : String) (payload : Payload) : Outcome × Store :=
  match caller with
  | none => (.authError, s)
  | some uid =>
    match updateCore schemaKeys uid s id payload with
    | .ok s2 => (.noContent, s2)
    | .error e => (handle e, s)

/-- DESTROY handler shape shared by all three DELETE routes: token
required, `findById`, `handle404`, `requireOwnership`, then
`document.remove()`.  The source does not return the `remove()` promise
into the chain, so the chain proceeds to `res.sendStatus(204)` whether or
not the removal succeeds; a failed removal (`removeOk = false`) leaves
the store unchanged while 204 is still the response, and the removal
failure never reaches `handle`. -/
def deleteRoute (caller : Option String) (s : Store) (id : String)
    (removeOk : Bool) : Outcome × Store :=
  match caller with
  | none => (.authError, s)
  | some uid =>
    match handle404 (findById s id) with
    | .error e => (handle e, s)
    | .ok doc =>
      match requireOwnership uid doc with
      | .error e => (handle e, s)
      | .ok _ =>
        let s2 :=
          if removeOk then
            { s with docs := s.docs.filter (fun d => d.rid != id) }
          else s
        (.noContent, s2)

/-- CREATE handler shape shared by all three POST routes: token required,
stamp `body.owner` from context (`stamp` receives the caller id and the
raw body), then `Model.create`; 201 with the new document, failures go to
`handle`. -/
def createRoute (schemaKeys required : List String)
    (stamp : String → Payload → String) (caller : Option String) (s : Store)
    (payload : Payload) : Outcome × Store :=
  match caller with
  | none => (.authError, s)
  | some uid =>
    let body := setField payload "owner" (stamp uid payload)
    match createDoc schemaKeys required body s with
    | .ok (r, s2) => (.created r, s2)
    | .error e => (handle e, s)

/-- INDEX handler shape of `GET /volunteers` and `GET /projects`: token
required, `Model.find()` with no filter, 200 with every document. -/
def indexAllRoute (caller : Option String) (s : Store) : Outcome × Store :=
  match caller with
  | none => (.authError, s)
  | some _ => (.okList s.docs, s)

/-- Modelled from the spec: `app/models/organization.js` is not under the
provided sources.  Section 3 gives a resource free-form string domain
fields and the section 8 scenarios exercise an organization `name` field,
so the Organization schema is modelled with a required `name` domain
field plus the required `owner` reference. -/
def orgSchemaKeys : List String := ["name"]

/-- Modelled from the spec: required paths of the Organization schema
(see `orgSchemaKeys`). -/
def orgRequired : List String := ["name", "owner"]

/-- `GET /organizations` (organization_route.js lines 33-45): token
required, `Organization.find({ owner: req.user.id })`, 200 with the
caller's organizations only. -/
def orgIndexRoute (caller : Option String) (s : Store) : Outcome × Store :=
  match caller with
  | none => (.authError, s)
  | some uid => (.okList (s.docs.filter (fun d => d.owner == uid)), s)

/-- `GET /organizations/:id` (organization_route.js lines 49-57). -/
def orgShowRoute : Option String → Store → String → Outcome × Store :=
  showRoute

/-- `POST /organizations` (organization_route.js lines 61-74): owner is
stamped from `req.user.id`. -/
def orgCreateRoute : Option String → Store → Payload → Outcome × Store :=
  createRoute orgSchemaKeys orgRequired (fun uid _ => uid)

/-- `PATCH /organizations/:id` (organization_route.js lines 78-106). -/
def orgUpdateRoute : Option String → Store → String → Payload →
    Outcome × Store :=
  updateRoute orgSchemaKeys

/-- `DELETE /organizations/:id` (organization_route.js lines 110-123). -/
def orgDeleteRoute : Option String → Store → String → Bool →
    Outcome × Store :=
  deleteRoute

/-- Schema paths of the Volunteer model (volunteer model file). -/
def volSchemaKeys : List String := ["description", "skills"]

/-- Required paths of the Volunteer model. -/
def volRequired : List String := ["description", "skills", "owner"]

/-- `GET /volunteers` (volunteer_routes.js lines 33-45):
`Volunteer.find()` with no filter. -/
def volIndexRoute : Option String → Store → Outcome × Store :=
  indexAllRoute

/-- `GET /volunteers/:id` (volunteer_routes.js lines 49-57). -/
def volShowRoute : Option String → Store → String → Outcome × Store :=
  showRoute

/-- `POST /volunteers` (volunteer_routes.js lines 61-74): owner is
stamped from `req.user.id`. -/
def volCreateRoute : Option String → Store → Payload → Outcome × Store :=
  createRoute volSchemaKeys volRequired (fun uid _ => uid)

/-- `PATCH /volunteers/:id` (volunteer_routes.js lines 78-106). -/
def volUpdateRoute : Option String → Store → String → Payload →
    Outcome × Store :=
  updateRoute volSchemaKeys

/-- `DELETE /volunteers/:id` (volunteer_routes.js lines 110-123). -/
def volDeleteRoute : Option String → Store → String → Bool →
    Outcome × Store :=
  deleteRoute

/-- Schema paths of the Project model (project model file). -/
def projectSchemaKeys : List String :=
  ["name", "type", "description", "desiredskills"]

/-- Required paths of the Project model. -/
def projectRequired : List String :=
  ["name", "type", "description", "desiredskills", "owner"]

/-- `GET /projects/:id` (project routes lines 33-45): registered WITHOUT
`requireToken`, and it runs `Project.find({ owner: req.params.id })` —
a list of the projects owned by the id in the path, with 200, never a
`findById` plus `handle404`.  The unused caller argument records that the
handler ignores authentication entirely. -/
def projectShowByIdRoute (_caller : Option String) (s : Store)
    (ownerParam : String) : Outcome × Store :=
  (.okList (s.docs.filter (fun d => d.owner == ownerParam)), s)

/-- `GET /projects` (project routes lines 48-61): token required,
`Project.find()` with no filter. -/
def projectIndexRoute : Option String → Store → Outcome × Store :=
  indexAllRoute

/-- `POST /projects` (project routes lines 65-78): owner is stamped from
`req.body.project.organization_id`; a missing reference behaves as an
empty owner, which fails required-field validation. -/
def projectCreateRoute : Option String → Store → Payload →
    Outcome × Store :=
  createRoute projectSchemaKeys projectRequired
    (fun _ p => (lookupKey p "organization_id").getD "")

/-- `PATCH /projects/:id` (project routes lines 82-110). -/
def projectUpdateRoute : Option String → Store → String → Payload →
    Outcome × Store :=
  updateRoute projectSchemaKeys

/-- `DELETE /projects/:id` (project routes lines 114-127). -/
def projectDeleteRoute : Option String → Store → String → Bool →
    Outcome × Store :=
  deleteRoute

/-! Helper lemmas shared by several developments below. -/

theorem lookupKey_eq_none_iff (p : Payload) (k : String) :
    lookupKey p k = none ↔ ∀ kv ∈ p, kv.1 ≠ k := by
  simp [lookupKey, List.find?_eq_none]

theorem lookupKey_filter_none (p : Payload) (f : String × String → Bool)
    (k : String) (h : lookupKey p k = none) :
    lookupKey (p.filter f) k = none := by
  rw [lookupKey_eq_none_iff] at h ⊢
  intro kv hkv
  exact h kv (List.mem_of_mem_filter hkv)

theorem lookupKey_dropOwnerKey (p : Payload) :
    lookupKey (dropOwnerKey p) "owner" = none := by
  rw [lookupKey_eq_none_iff]
  intro kv hkv
  have := List.of_mem_filter hkv
  simpa using this

theorem lookupKey_sanitize_owner (p : Payload) :
    lookupKey (sanitize p) "owner" = none :=
  lookupKey_filter_none _ _ _ (lookupKey_dropOwnerKey p)

theorem lookupKey_setField (p : Payload) (k v : String) :
    lookupKey (setField p k v) k = some v := by
  induction p with
  | nil => simp [setField, lookupKey]
  | cons kv rest ih =>
    by_cases h : kv.1 = k
    · simp [setField, h, lookupKey]
    · simpa [setField, h, lookupKey, List.find?] using ih

theorem setField_of_absent (p : Payload) (k v : String)
    (h : lookupKey p k = none) : setField p k v = p ++ [(k, v)] := by
  induction p with
  | nil => simp [setField]
  | cons kv rest ih =>
    rw [lookupKey_eq_none_iff] at h
    have hk : kv.1 ≠ k := h kv (by simp)
    have hrest : lookupKey rest k = none := by
      rw [lookupKey_eq_none_iff]
      intro kv2 hkv2
      exact h kv2 (by simp [hkv2])
    simp [setField, hk, ih hrest]

theorem find?_map_replace (l : List Resource) (id : String) (r2 : Resource)
    (h2 : r2.rid = id) (i : String) :
    (l.map (fun d => if d.rid = id then r2 else d)).find?
        (fun d => d.rid = i) =
      if i = id then (l.find? (fun d => d.rid = id)).map (fun _ => r2)
      else l.find? (fun d => d.rid = i) := by
  induction l with
  | nil => simp
  | cons d t ih =>
    by_cases hd : d.rid = id
    · by_cases hi : i = id
      · simp [hd, hi, h2, List.find?]
      · have : r2.rid ≠ i := by rw [h2]; exact fun hc => hi hc.symm
        have hdne : d.rid ≠ i := by rw [hd]; exact fun hc => hi hc.symm
        have hidne : id ≠ i := fun hc => hi hc.symm
        simp [hd, hi, this, hdne, hidne, List.find?, ih]
    · by_cases hdi : d.rid = i
      · have : i ≠ id := fun hc => hd (hdi.trans hc)
        simp [hd, hdi, this, List.find?]
      · simp [hd, hdi, List.find?, ih]

theorem findById_map_replace (s : Store) (id : String) (r2 : Resource)
    (h2 : r2.rid = id) (i : String) :
    findById
        { s with docs := s.docs.map (fun d => if d.rid = id then r2 else d) }
        i =
      if i = id then (findById s id).map (fun _ => r2) else findById s i :=
  find?_map_replace s.docs id r2 h2 i

theorem applyUpdate_owner (schemaKeys : List String) (r : Resource)
    (patch : Payload) (h : lookupKey patch "owner" = none) :
    (applyUpdate schemaKeys r patch).owner = r.owner := by
  simp [applyUpdate, h]

theorem applyUpdate_nil (schemaKeys : List String) (r : Resource) :
    applyUpdate schemaKeys r [] = r := by
  simp [applyUpdate, lookupKey, mergeFields]

/-! Claim theorems. -/

/-- C1: for a stored resource owned by `x`, an update or delete request
authenticated as any caller `c ≠ x` fails with the Forbidden condition
and leaves the store untouched (the ownership check runs before any
mutation), while the same request authenticated as `x` succeeds. -/
theorem C1_ownership_guard (schemaKeys : List String) (s : Store)
    (id x c : String) (r : Resource) (p : Payload) (b : Bool)
    (hfind : findById s id = some r) (hx : r.owner = x) :
    (c ≠ x →
      updateRoute schemaKeys (some c) s id p = (Outcome.forbidden, s) ∧
      deleteRoute (some c) s id b = (Outcome.forbidden, s)) ∧
    (updateRoute schemaKeys (some x) s id p).1 = Outcome.noContent ∧
    (deleteRoute (some x) s id true).1 = Outcome.noContent := by
  refine ⟨fun hc => ?_, ?_, ?_⟩
  · have hne : r.owner ≠ c := by rw [hx]; exact fun h => hc h.symm
    constructor
    · simp [updateRoute, updateCore, hfind, handle404, requireOwnership,
        hne, handle]
    · simp [deleteRoute, hfind, handle404, requireOwnership, hne, handle]
  · simp [updateRoute, updateCore, hfind, handle404, requireOwnership, hx]
  · simp [deleteRoute, hfind, handle404, requireOwnership, hx]

/-- Witness for C1 at a one-document store owned by `u1`, with `u2` as
the foreign caller. -/
theorem C1_ownership_guard_witness :
    updateRoute ["name"] (some "u2") ⟨[⟨"1", "u1", [("name", "n")]⟩], 5⟩
        "1" [("name", "z")] =
      (Outcome.forbidden, ⟨[⟨"1", "u1", [("name", "n")]⟩], 5⟩) ∧
    deleteRoute (some "u2") ⟨[⟨"1", "u1", [("name", "n")]⟩], 5⟩ "1" true =
      (Outcome.forbidden, ⟨[⟨"1", "u1", [("name", "n")]⟩], 5⟩) ∧
    (updateRoute ["name"] (some "u1") ⟨[⟨"1", "u1", [("name", "n")]⟩], 5⟩
        "1" [("name", "z")]).1 = Outcome.noContent ∧
    (deleteRoute (some "u1") ⟨[⟨"1", "u1", [("name", "n")]⟩], 5⟩ "1"
        true).1 = Outcome.noContent := by
  have h := C1_ownership_guard ["name"] ⟨[⟨"1", "u1", [("name", "n")]⟩], 5⟩
    "1" "u1" "u2" ⟨"1", "u1", [("name", "n")]⟩ [("name", "z")] true rfl rfl
  exact ⟨(h.1 (by decide)).1, (h.1 (by decide)).2, h.2.1, h.2.2⟩

theorem payloadFilter_idem (f : String × String → Bool) (l : Payload) :
    (l.filter f).filter f = l.filter f := by
  induction l with
  | nil => rfl
  | cons a t ih =>
    by_cases h : f a <;> simp [List.filter_cons, h, ih]

theorem payloadFilter_comm (f g : String × String → Bool) (l : Payload) :
    (l.filter f).filter g = (l.filter g).filter f := by
  induction l with
  | nil => rfl
  | cons a t ih =>
    by_cases h1 : f a <;> by_cases h2 : g a <;>
      simp [List.filter_cons, h1, h2, ih]

/-- C9: the update-payload sanitization (drop the `owner` key, then drop
every empty-string-valued key) is idempotent. -/
theorem C9_sanitize_idempotent (p : Payload) :
    sanitize (sanitize p) = sanitize p := by
  simp only [sanitize, sanitizeEmpty, dropOwnerKey]
  rw [payloadFilter_comm (fun kv => kv.2 != "") (fun kv => kv.1 != "owner"),
    payloadFilter_idem, payloadFilter_idem]

/-- C10: the organization list returns only the caller's documents, the
volunteer and project lists return every stored document and are
identical for any two authenticated callers, and the organization list
response genuinely depends on the caller (shown on a concrete store). -/
theorem C10_list_visibility (s : Store) (u1 u2 : String) :
    (volIndexRoute (some u1) s).1 = Outcome.okList s.docs ∧
    volIndexRoute (some u1) s = volIndexRoute (some u2) s ∧
    (projectIndexRoute (some u1) s).1 = Outcome.okList s.docs ∧
    projectIndexRoute (some u1) s = projectIndexRoute (some u2) s ∧
    (orgIndexRoute (some u1) s).1 =
      Outcome.okList (s.docs.filter (fun d => d.owner == u1)) ∧
    orgIndexRoute (some "a") ⟨[⟨"1", "a", []⟩], 2⟩ ≠
      orgIndexRoute (some "b") ⟨[⟨"1", "a", []⟩], 2⟩ := by
  refine ⟨rfl, rfl, rfl, rfl, rfl, ?_⟩
  intro hc
  have := congrArg Prod.fst hc
  simp [orgIndexRoute] at this

/-- C2 counterexample: `GET /projects/:id` is registered without
`requireToken`, so a request with no validated caller identity still
reaches the store and produces a 200 success outcome; the claim that
every operation authenticates first is therefore false. -/
theorem C2_counterexample :
    (projectShowByIdRoute none ⟨[⟨"1", "org1", [("name", "n")]⟩], 2⟩
        "org1").1 =
      Outcome.okList [⟨"1", "org1", [("name", "n")]⟩] ∧
    status (projectShowByIdRoute none ⟨[⟨"1", "org1", [("name", "n")]⟩], 2⟩
        "org1").1 = 200 := by
  exact ⟨rfl, rfl⟩

/-- C2 amended: every route except `GET /projects/:id` authenticates
first — with no validated caller identity each of them yields the 401
auth outcome and leaves the store untouched.  The generic `showRoute`,
`updateRoute`, `deleteRoute`, `createRoute` conjuncts cover every
per-resource instantiation. -/
theorem C2_amended_auth_first (schemaKeys required : List String)
    (stamp : String → Payload → String) (s : Store) (id : String)
    (p : Payload) (b : Bool) :
    showRoute none s id = (Outcome.authError, s) ∧
    updateRoute schemaKeys none s id p = (Outcome.authError, s) ∧
    deleteRoute none s id b = (Outcome.authError, s) ∧
    createRoute schemaKeys required stamp none s p = (Outcome.authError, s) ∧
    orgIndexRoute none s = (Outcome.authError, s) ∧
    volIndexRoute none s = (Outcome.authError, s) ∧
    projectIndexRoute none s = (Outcome.authError, s) ∧
    orgShowRoute none s id = (Outcome.authError, s) ∧
    volShowRoute none s id = (Outcome.authError, s) ∧
    orgCreateRoute none s p = (Outcome.authError, s) ∧
    volCreateRoute none s p = (Outcome.authError, s) ∧
    projectCreateRoute none s p = (Outcome.authError, s) ∧
    orgUpdateRoute none s id p = (Outcome.authError, s) ∧
    volUpdateRoute none s id p = (Outcome.authError, s) ∧
    projectUpdateRoute none s id p = (Outcome.authError, s) ∧
    orgDeleteRoute none s id b = (Outcome.authError, s) ∧
    volDeleteRoute none s id b = (Outcome.authError, s) ∧
    projectDeleteRoute none s id b = (Outcome.authError, s) := by
  exact ⟨rfl, rfl, rfl, rfl, rfl, rfl, rfl, rfl, rfl, rfl, rfl, rfl, rfl,
    rfl, rfl, rfl, rfl, rfl⟩

theorem createRoute_owner (schemaKeys required : List String)
    (stamp : String → Payload → String) (uid : String) (s : Store)
    (p : Payload) (r : Resource) (s2 : Store)
    (h : createRoute schemaKeys required stamp (some uid) s p =
      (Outcome.created r, s2)) :
    r.owner = stamp uid p := by
  simp only [createRoute, createDoc] at h
  by_cases hv :
      validate required (setField p "owner" (stamp uid p)) = true
  · rw [if_pos hv] at h
    simp only [Prod.mk.injEq, Outcome.created.injEq] at h
    rw [← h.1]
    simp [lookupKey_setField]
  · rw [if_neg hv] at h
    simp [handle] at h

/-- C3: on every create, the stored owner is stamped server-side — for
organizations and volunteers it equals the authenticated caller's id,
for projects it is the supplied `organization_id` reference — regardless
of any client-supplied `owner` field in the payload. -/
theorem C3_owner_stamped :
    (∀ uid s p r s2,
        orgCreateRoute (some uid) s p = (Outcome.created r, s2) →
          r.owner = uid) ∧
    (∀ uid s p r s2,
        volCreateRoute (some uid) s p = (Outcome.created r, s2) →
          r.owner = uid) ∧
    (∀ uid s p r s2,
        projectCreateRoute (some uid) s p = (Outcome.created r, s2) →
          r.owner = (lookupKey p "organization_id").getD "") :=
  ⟨fun uid s p r s2 h =>
      createRoute_owner orgSchemaKeys orgRequired (fun u _ => u) uid s p
        r s2 h,
    fun uid s p r s2 h =>
      createRoute_owner volSchemaKeys volRequired (fun u _ => u) uid s p
        r s2 h,
    fun uid s p r s2 h =>
      createRoute_owner projectSchemaKeys projectRequired
        (fun _ q => (lookupKey q "organization_id").getD "") uid s p r s2
        h⟩

/-- Witness for C3: concrete creates on empty stores; the project
payload carries a client `owner` field that is overridden by
`organization_id`. -/
theorem C3_owner_stamped_witness :
    (⟨"0", "u1", [("name", "n")]⟩ : Resource).owner = "u1" ∧
    (⟨"0", "u2", [("description", "d"), ("skills", "k")]⟩ :
      Resource).owner = "u2" ∧
    (⟨"0", "org7", [("name", "n"), ("type", "t"), ("description", "d"),
        ("desiredskills", "k")]⟩ : Resource).owner =
      (lookupKey [("owner", "evil"), ("name", "n"), ("type", "t"),
        ("description", "d"), ("desiredskills", "k"),
        ("organization_id", "org7")] "organization_id").getD "" := by
  refine ⟨?_, ?_, ?_⟩
  · exact C3_owner_stamped.1 "u1" ⟨[], 0⟩ [("name", "n")]
      ⟨"0", "u1", [("name", "n")]⟩
      ⟨[⟨"0", "u1", [("name", "n")]⟩], 1⟩ (by decide)
  · exact C3_owner_stamped.2.1 "u2" ⟨[], 0⟩
      [("description", "d"), ("skills", "k")]
      ⟨"0", "u2", [("description", "d"), ("skills", "k")]⟩
      ⟨[⟨"0", "u2", [("description", "d"), ("skills", "k")]⟩], 1⟩
      (by decide)
  · exact C3_owner_stamped.2.2 "u9" ⟨[], 0⟩
      [("owner", "evil"), ("name", "n"), ("type", "t"),
        ("description", "d"), ("desiredskills", "k"),
        ("organization_id", "org7")]
      ⟨"0", "org7", [("name", "n"), ("type", "t"), ("description", "d"),
        ("desiredskills", "k")]⟩
      ⟨[⟨"0", "org7", [("name", "n"), ("type", "t"), ("description", "d"),
        ("desiredskills", "k")]⟩], 1⟩ (by decide)

/-- C4 counterexample: a `GET /projects/:id` request whose id resolves to
no stored document yields 200 with an empty list, not the NotFound
outcome, so the uniform-404 claim is false for the project show
operation. -/
theorem C4_counterexample :
    (projectShowByIdRoute (some "u1") ⟨[], 0⟩ "abc").1 =
      Outcome.okList [] ∧
    (projectShowByIdRoute (some "u1") ⟨[], 0⟩ "abc").1 ≠
      Outcome.notFound := by
  exact ⟨rfl, by decide⟩

/-- C4 amended: for organization and volunteer show/update/delete and
for project update/delete (all instances of the generic routes), an id
that resolves to no stored document yields the NotFound outcome
uniformly; the project `GET /projects/:id` route instead answers 200
with the list of projects whose owner equals the id. -/
theorem C4_amended_uniform_404 (schemaKeys : List String) (s : Store)
    (id c : String) (p : Payload) (b : Bool)
    (h : findById s id = none) :
    showRoute (some c) s id = (Outcome.notFound, s) ∧
    updateRoute schemaKeys (some c) s id p = (Outcome.notFound, s) ∧
    deleteRoute (some c) s id b = (Outcome.notFound, s) ∧
    (projectShowByIdRoute (some c) s id).1 =
      Outcome.okList (s.docs.filter (fun d => d.owner == id)) := by
  refine ⟨?_, ?_, ?_, rfl⟩ <;>
    simp [showRoute, updateRoute, updateCore, deleteRoute, h, handle404,
      handle]

/-- Witness for C4 amended on an empty store. -/
theorem C4_amended_uniform_404_witness :
    showRoute (some "u1") ⟨[], 0⟩ "zz" = (Outcome.notFound, ⟨[], 0⟩) ∧
    updateRoute ["name"] (some "u1") ⟨[], 0⟩ "zz" [("name", "z")] =
      (Outcome.notFound, ⟨[], 0⟩) ∧
    deleteRoute (some "u1") ⟨[], 0⟩ "zz" true =
      (Outcome.notFound, ⟨[], 0⟩) ∧
    (projectShowByIdRoute (some "u1") ⟨[], 0⟩ "zz").1 =
      Outcome.okList [] := by
  have h := C4_amended_uniform_404 ["name"] ⟨[], 0⟩ "zz" "u1"
    [("name", "z")] true rfl
  exact ⟨h.1, h.2.1, h.2.2.1, h.2.2.2⟩

/-- C5: an update request whose payload contains an `owner` key leaves
the persisted owner of every stored document unchanged — the handler
deletes the client `owner` key before anything else, so the owner field
is immutable via update. -/
theorem C5_owner_immutable (schemaKeys : List String)
    (caller : Option String) (s : Store) (id : String) (p : Payload)
    (v : String) (hp : lookupKey p "owner" = some v) (i : String) :
    (findById (updateRoute schemaKeys caller s id p).2 i).map
        Resource.owner =
      (findById s i).map Resource.owner := by
  cases caller with
  | none => rfl
  | some uid =>
    simp only [updateRoute]
    cases hcore : updateCore schemaKeys uid s id p with
    | error e => simp
    | ok s2 =>
      simp only [updateCore] at hcore
      cases hfind : findById s id with
      | none => rw [hfind] at hcore; simp [handle404] at hcore
      | some doc =>
        rw [hfind] at hcore
        by_cases how : doc.owner = uid
        · simp only [handle404, requireOwnership, how, if_pos] at hcore
          have hrid : doc.rid = id := by
            have hfind' : s.docs.find? (fun d => d.rid = id) = some doc :=
              hfind
            have h2 := List.find?_some (p := fun d : Resource => decide (d.rid = id))
              hfind'
            exact of_decide_eq_true h2
          have hown2 :
              (applyUpdate schemaKeys doc
                (sanitizeEmpty (dropOwnerKey p))).owner = doc.owner :=
            applyUpdate_owner _ _ _ (lookupKey_sanitize_owner p)
          have hrid2 :
              (applyUpdate schemaKeys doc
                (sanitizeEmpty (dropOwnerKey p))).rid = id := hrid
          rw [← hcore]
          rw [findById_map_replace s id _ hrid2 i]
          by_cases hi : i = id
          · simp [hi, hfind, hown2]
          · simp [hi]
        · simp [handle404, requireOwnership, how] at hcore

/-- Witness for C5: a payload carrying `owner: evil` against a stored
organization owned by `u1`, updated by its owner. -/
theorem C5_owner_immutable_witness :
    (findById
        (updateRoute ["name"] (some "u1")
          ⟨[⟨"1", "u1", [("name", "n")]⟩], 2⟩ "1"
          [("owner", "evil"), ("name", "z")]).2 "1").map Resource.owner =
      (findById ⟨[⟨"1", "u1", [("name", "n")]⟩], 2⟩ "1").map
        Resource.owner :=
  C5_owner_immutable ["name"] (some "u1")
    ⟨[⟨"1", "u1", [("name", "n")]⟩], 2⟩ "1"
    [("owner", "evil"), ("name", "z")] "evil" rfl "1"

/-- C6: evaluation of the DELETE handler at the failing input.  The
source never returns the `remove()` promise into the chain, so when the
Store delete fails (`removeOk = false`) on a document the caller owns,
the handler still answers 204 success and the document stays stored —
the failure never reaches the section 4.4 error sink, contradicting the
claim and the spec's propagation policy. -/
theorem C6_delete_failure_still_204 :
    deleteRoute (some "u1") ⟨[⟨"1", "u1", [("name", "n")]⟩], 2⟩ "1"
        false =
      (Outcome.noContent, ⟨[⟨"1", "u1", [("name", "n")]⟩], 2⟩) ∧
    status Outcome.noContent = 204 := by
  exact ⟨rfl, rfl⟩

/-- C8: an owner's update whose payload sanitizes to nothing (only the
`owner` key and empty-string values) still succeeds with 204 and leaves
the stored resource exactly as it was. -/
theorem C8_empty_update_noop (schemaKeys : List String) (s : Store)
    (id uid : String) (r : Resource) (p : Payload)
    (hfind : findById s id = some r) (hown : r.owner = uid)
    (hsan : sanitize p = []) :
    (updateRoute schemaKeys (some uid) s id p).1 = Outcome.noContent ∧
    findById (updateRoute schemaKeys (some uid) s id p).2 id = some r := by
  have hrid : r.rid = id := by
    have hfind' : s.docs.find? (fun d => d.rid = id) = some r := hfind
    have h2 := List.find?_some (p := fun d : Resource => decide (d.rid = id)) hfind'
    exact of_decide_eq_true h2
  have hsan' : sanitizeEmpty (dropOwnerKey p) = [] := hsan
  have hroute : updateRoute schemaKeys (some uid) s id p =
      (Outcome.noContent,
        { s with docs := s.docs.map (fun d => if d.rid = id then r else d) })
      := by
    simp [updateRoute, updateCore, hfind, handle404, requireOwnership,
      hown, hsan', applyUpdate_nil]
  rw [hroute]
  refine ⟨rfl, ?_⟩
  rw [findById_map_replace s id r hrid id]
  simp [hfind]

/-- Witness for C8: the section 8 scenario — PATCH with body
`{name: ""}` by the owner answers 204 and the stored name is
unchanged. -/
theorem C8_empty_update_noop_witness :
    (updateRoute ["name"] (some "u1")
        ⟨[⟨"1", "u1", [("name", "alpha")]⟩], 2⟩ "1" [("name", "")]).1 =
      Outcome.noContent ∧
    findById
        (updateRoute ["name"] (some "u1")
          ⟨[⟨"1", "u1", [("name", "alpha")]⟩], 2⟩ "1" [("name", "")]).2
        "1" =
      some ⟨"1", "u1", [("name", "alpha")]⟩ :=
  C8_empty_update_noop ["name"] ⟨[⟨"1", "u1", [("name", "alpha")]⟩], 2⟩
    "1" "u1" ⟨"1", "u1", [("name", "alpha")]⟩ [("name", "")] rfl rfl rfl

theorem find?_append_none {α : Type} (l1 l2 : List α) (p : α → Bool)
    (h : l1.find? p = none) : (l1 ++ l2).find? p = l2.find? p := by
  induction l1 with
  | nil => rfl
  | cons a t ih =>
    by_cases hpa : p a
    · rw [List.find?_cons_of_pos _ hpa] at h
      exact absurd h (by simp)
    · rw [List.find?_cons_of_neg _ hpa] at h
      rw [List.cons_append, List.find?_cons_of_neg _ hpa]
      exact ih h

theorem createRoute_roundtrip (schemaKeys required : List String)
    (stamp : String → Payload → String)
    (uid : String) (s : Store) (p : Payload)
    (hp1 : lookupKey p "owner" = none)
    (hkeys : ∀ kv ∈ p, schemaKeys.contains kv.1 = true)
    (hvalid : validate required (setField p "owner" (stamp uid p)) = true)
    (hfresh : findById s (toString s.nextId) = none) :
    createRoute schemaKeys required stamp (some uid) s p =
      (Outcome.created ⟨toString s.nextId, stamp uid p, p⟩,
        ⟨s.docs ++ [⟨toString s.nextId, stamp uid p, p⟩],
          s.nextId + 1⟩) ∧
    showRoute (some uid)
        ⟨s.docs ++ [⟨toString s.nextId, stamp uid p, p⟩], s.nextId + 1⟩
        (toString s.nextId) =
      (Outcome.okDoc ⟨toString s.nextId, stamp uid p, p⟩,
        ⟨s.docs ++ [⟨toString s.nextId, stamp uid p, p⟩],
          s.nextId + 1⟩) := by
  have hbody : setField p "owner" (stamp uid p) =
      p ++ [("owner", stamp uid p)] :=
    setField_of_absent p "owner" (stamp uid p) hp1
  have hfields :
      (setField p "owner" (stamp uid p)).filter
          (fun kv => schemaKeys.contains kv.1 && kv.1 != "owner") = p := by
    rw [hbody, List.filter_append]
    have h1 : p.filter
        (fun kv => schemaKeys.contains kv.1 && kv.1 != "owner") = p := by
      rw [List.filter_eq_self]
      intro kv hkv
      have hne : kv.1 ≠ "owner" :=
        (lookupKey_eq_none_iff p "owner").mp hp1 kv hkv
      have hmem : kv.1 ∈ schemaKeys := by
        have := hkeys kv hkv
        simpa using this
      simp [hmem, hne]
    have h2 : List.filter
        (fun kv => schemaKeys.contains kv.1 && kv.1 != "owner")
        [("owner", stamp uid p)] = [] := by
      simp [List.filter]
    rw [h1, h2, List.append_nil]
  have howner :
      lookupKey (setField p "owner" (stamp uid p)) "owner" =
        some (stamp uid p) :=
    lookupKey_setField p "owner" (stamp uid p)
  have hdoc : createDoc schemaKeys required
      (setField p "owner" (stamp uid p)) s =
      Except.ok (⟨toString s.nextId, stamp uid p, p⟩,
        ⟨s.docs ++ [⟨toString s.nextId, stamp uid p, p⟩],
          s.nextId + 1⟩) := by
    simp only [createDoc]
    rw [if_pos hvalid, howner, hfields]
    rfl
  have hcreate : createRoute schemaKeys required stamp (some uid) s p =
      (Outcome.created ⟨toString s.nextId, stamp uid p, p⟩,
        ⟨s.docs ++ [⟨toString s.nextId, stamp uid p, p⟩],
          s.nextId + 1⟩) := by
    simp [createRoute, hdoc]
  refine ⟨hcreate, ?_⟩
  have hfresh' : s.docs.find?
      (fun d => d.rid = toString s.nextId) = none := hfresh
  have hfound : (s.docs ++
        [(⟨toString s.nextId, stamp uid p, p⟩ : Resource)]).find?
        (fun d => d.rid = toString s.nextId) =
      some ⟨toString s.nextId, stamp uid p, p⟩ := by
    rw [find?_append_none _ _ _ hfresh']
    simp [List.find?]
  simp [showRoute, findById, hfound, handle404]

/-- C7 counterexample: creating a project (owner stamped from the
supplied `organization_id` = `org1`) and then fetching the returned
identifier `0` through `GET /projects/:id` yields an empty list — the
route filters by owner, not by document id — so the round-trip claim is
false for projects at this concrete input. -/
theorem C7_counterexample :
    projectCreateRoute (some "u1") ⟨[], 0⟩
        [("name", "n"), ("type", "t"), ("description", "d"),
          ("desiredskills", "k"), ("organization_id", "org1")] =
      (Outcome.created ⟨"0", "org1",
          [("name", "n"), ("type", "t"), ("description", "d"),
            ("desiredskills", "k")]⟩,
        ⟨[⟨"0", "org1",
          [("name", "n"), ("type", "t"), ("description", "d"),
            ("desiredskills", "k")]⟩], 1⟩) ∧
    (projectShowByIdRoute (some "u1")
        ⟨[⟨"0", "org1",
          [("name", "n"), ("type", "t"), ("description", "d"),
            ("desiredskills", "k")]⟩], 1⟩ "0").1 =
      Outcome.okList [] := by
  exact ⟨by decide, by decide⟩

/-- C7 amended: for organizations and volunteers, creating a resource
with domain fields `p` (no `owner` key, all keys schema fields, stamped
body valid, fresh id) and fetching the returned identifier yields
exactly that resource, with owner the creating caller's id; for
projects, fetching the returned identifier through `GET /projects/:id`
instead returns the stored projects whose owner equals that identifier
(the created one only if its organization reference equals its own
id). -/
theorem C7_roundtrip_amended :
    (∀ uid s p,
        lookupKey p "owner" = none →
        (∀ kv ∈ p, orgSchemaKeys.contains kv.1 = true) →
        validate orgRequired (setField p "owner" uid) = true →
        findById s (toString s.nextId) = none →
        orgCreateRoute (some uid) s p =
          (Outcome.created ⟨toString s.nextId, uid, p⟩,
            ⟨s.docs ++ [⟨toString s.nextId, uid, p⟩], s.nextId + 1⟩) ∧
        orgShowRoute (some uid)
            ⟨s.docs ++ [⟨toString s.nextId, uid, p⟩], s.nextId + 1⟩
            (toString s.nextId) =
          (Outcome.okDoc ⟨toString s.nextId, uid, p⟩,
            ⟨s.docs ++ [⟨toString s.nextId, uid, p⟩], s.nextId + 1⟩)) ∧
    (∀ uid s p,
        lookupKey p "owner" = none →
        (∀ kv ∈ p, volSchemaKeys.contains kv.1 = true) →
        validate volRequired (setField p "owner" uid) = true →
        findById s (toString s.nextId) = none →
        volCreateRoute (some uid) s p =
          (Outcome.created ⟨toString s.nextId, uid, p⟩,
            ⟨s.docs ++ [⟨toString s.nextId, uid, p⟩], s.nextId + 1⟩) ∧
        volShowRoute (some uid)
            ⟨s.docs ++ [⟨toString s.nextId, uid, p⟩], s.nextId + 1⟩
            (toString s.nextId) =
          (Outcome.okDoc ⟨toString s.nextId, uid, p⟩,
            ⟨s.docs ++ [⟨toString s.nextId, uid, p⟩], s.nextId + 1⟩)) ∧
    (∀ c s id, (projectShowByIdRoute (some c) s id).1 =
        Outcome.okList (s.docs.filter (fun d => d.owner == id))) := by
  refine ⟨?_, ?_, fun c s id => rfl⟩
  · intro uid s p hp1 hkeys hvalid hfresh
    exact createRoute_roundtrip orgSchemaKeys orgRequired (fun u _ => u)
      uid s p hp1 hkeys hvalid hfresh
  · intro uid s p hp1 hkeys hvalid hfresh
    exact createRoute_roundtrip volSchemaKeys volRequired (fun u _ => u)
      uid s p hp1 hkeys hvalid hfresh

/-- Witness for C7 amended: concrete organization and volunteer
round-trips on empty stores. -/
theorem C7_roundtrip_amended_witness :
    (orgCreateRoute (some "u1") ⟨[], 0⟩ [("name", "n")] =
      (Outcome.created ⟨"0", "u1", [("name", "n")]⟩,
        ⟨[⟨"0", "u1", [("name", "n")]⟩], 1⟩) ∧
    orgShowRoute (some "u1") ⟨[⟨"0", "u1", [("name", "n")]⟩], 1⟩ "0" =
      (Outcome.okDoc ⟨"0", "u1", [("name", "n")]⟩,
        ⟨[⟨"0", "u1", [("name", "n")]⟩], 1⟩)) ∧
    (volCreateRoute (some "u2") ⟨[], 0⟩
        [("description", "d"), ("skills", "k")] =
      (Outcome.created ⟨"0", "u2", [("description", "d"), ("skills", "k")]⟩,
        ⟨[⟨"0", "u2", [("description", "d"), ("skills", "k")]⟩], 1⟩) ∧
    volShowRoute (some "u2")
        ⟨[⟨"0", "u2", [("description", "d"), ("skills", "k")]⟩], 1⟩ "0" =
      (Outcome.okDoc ⟨"0", "u2", [("description", "d"), ("skills", "k")]⟩,
        ⟨[⟨"0", "u2", [("description", "d"), ("skills", "k")]⟩], 1⟩)) := by
  constructor
  · exact C7_roundtrip_amended.1 "u1" ⟨[], 0⟩ [("name", "n")] rfl
      (by decide) (by decide) rfl
  · exact C7_roundtrip_amended.2.1 "u2" ⟨[], 0⟩
      [("description", "d"), ("skills", "k")] rfl (by decide) (by decide)
      rfl

end CharityCoders
